import Mathlib

/-!
Verification of the notification/listener bridge of the cryptopower wallet UI.

The Go source bridges a background wallet engine to UI pages through
buffered channels:

* `listeners.TxAndBlockNotificationListener` (src/unnamed/part_000) owns a
  channel of capacity 4; `UpdateNotification` is a plain blocking channel
  send; `OnTransaction` JSON-decodes its payload, logging and dropping the
  event on failure, and otherwise enqueues one NewTransaction notification.
* Pages (proposals_page.go, account_mixer_page.go, part_001) attach with a
  nil-guard, register with the engine, and start a goroutine that selects
  between the notification channel and the page context; on cancellation it
  unregisters, closes the channel and nils the listener reference.
* `TransactionsPage` (transactions_page.go) merely returns from its loop on
  cancellation and its `OnClose` only cancels the context.

The development below is a shallow embedding of those functions: channels
become lists plus a capacity bound, goroutine interleavings become explicit
action sequences over executable step functions, and the Go `select`
between two ready cases is modelled as a nondeterministic choice (the Go
specification picks a ready case uniformly at random).
-/

namespace Cryptopower

/-- One decoded wallet transaction (`libwallet.Transaction`); the engine
type is opaque to the UI layer, only its identity matters here. -/
structure Transaction where
  id : Nat
  deriving DecidableEq, Repr

/-- The tag of a tx/block notification (`NewTransaction`, `BlockAttached`,
`TxConfirmed` in package listeners). -/
inductive TxNotifType where
  | NewTransaction
  | BlockAttached
  | TxConfirmed
  deriving DecidableEq, Repr

/-- `listeners.TxNotification`, with the fields the adapter callbacks
populate (unset fields keep their Go zero values). -/
structure TxNotification where
  type : TxNotifType
  transaction : Option Transaction := none
  walletID : Int := 0
  blockHeight : Int := 0
  hash : String := ""
  deriving DecidableEq, Repr

/-- The buffered notification channel: `make(chan TxNotification, 4)`.
`buffer` is the FIFO content, `capacity` the bound fixed at creation. -/
structure TxNotifChan where
  capacity : Nat
  buffer : List TxNotification := []
  deriving DecidableEq, Repr

/-- `listeners.TxAndBlockNotificationListener`. -/
structure TxAndBlockNotificationListener where
  TxAndBlockNotifChan : TxNotifChan
  deriving DecidableEq, Repr

/-- `NewTxAndBlockNotificationListener` (src/unnamed/part_000 lines 15-19):
the channel is created with capacity 4 and empty buffer. -/
def NewTxAndBlockNotificationListener : TxAndBlockNotificationListener :=
  { TxAndBlockNotifChan := { capacity := 4 } }

/-- State visible to an adapter callback: the channel buffer it enqueues
onto and the error lines logged so far. -/
structure ListenerState where
  chanBuf : List TxNotification := []
  errorsLogged : Nat := 0
  deriving DecidableEq, Repr

/-- `OnTransaction` (src/unnamed/part_000 lines 21-34).  `unmarshal` stands
for `json.Unmarshal` into `libwallet.Transaction` (library code outside
this repository): `none` is a decode error.  On error the callback logs and
returns; on success it builds the NewTransaction notification and passes it
to `UpdateNotification`, i.e. enqueues it.  The function is total and
returns no error value, mirroring the `func (string)` signature. -/
def OnTransaction (unmarshal : String → Option Transaction)
    (transaction : String) (st : ListenerState) : ListenerState :=
  match unmarshal transaction with
  | none => { st with errorsLogged := st.errorsLogged + 1 }
  | some tx =>
      let update : TxNotification :=
        { type := TxNotifType.NewTransaction, transaction := some tx }
      { st with chanBuf := st.chanBuf ++ [update] }

/-- Inputs the consumer goroutine's select can observe: a notification
arriving on the channel, or the page context becoming cancelled. -/
inductive LoopInput where
  | notif (n : TxNotification)
  | cancelled
  deriving DecidableEq, Repr

/-- Observable events the consumer goroutine performs. -/
inductive LoopEvent where
  | dispatch (n : TxNotification)
  | engineUnregister
  | channelClose
  | clearListenerRef
  deriving DecidableEq, Repr

/-- The consumer goroutine of `AccountMixerPage.listenForMixerNotifications`
(account_mixer_page.go lines 279-300) and
`OrderHistoryPage.listenForSyncNotifications` (src/unnamed/part_001 lines
345-364), run over a script of select outcomes: each notification case
dispatches to the page handler and loops; the ctx.Done case runs
`RemoveNotificationListener`, `close(chan)`, `listener = nil` and returns,
abandoning any remaining script. -/
def consumerLoop : List LoopInput → List LoopEvent
  | [] => []
  | LoopInput.notif n :: rest => LoopEvent.dispatch n :: consumerLoop rest
  | LoopInput.cancelled :: _ =>
      [LoopEvent.engineUnregister, LoopEvent.channelClose,
       LoopEvent.clearListenerRef]

/-- The consumer goroutine of `TransactionsPage.listenForTxNotifications`
(transactions_page.go lines 190-211): notifications are dispatched; the
ctx.Done case is a bare `return` with no teardown action. -/
def txPageLoop : List LoopInput → List LoopEvent
  | [] => []
  | LoopInput.notif n :: rest => LoopEvent.dispatch n :: txPageLoop rest
  | LoopInput.cancelled :: _ => []

/-- State of a `TransactionsPage` relevant to detach: its context flag, the
shared `Receiver.NotificationsUpdate` channel's closed flag, and the count
of engine-side registrations backing that shared channel. -/
structure TransactionsPageState where
  ctxCancelled : Bool
  receiverChanClosed : Bool
  engineRegs : Nat
  deriving DecidableEq, Repr

/-- `TransactionsPage.OnClose` (transactions_page.go lines 213-215): the
body is exactly `pg.ctxCancel()`. -/
def TransactionsPageOnClose (s : TransactionsPageState) : TransactionsPageState :=
  { s with ctxCancelled := true }

/-- Page-level state for the attach/detach protocol shared by
`ProposalsPage.listenForSyncNotifications`,
`AccountMixerPage.listenForMixerNotifications` and
`OrderHistoryPage.listenForSyncNotifications`:
whether the page's listener field is non-nil, how many engine-side
registrations exist under the page's name, whether the consumer goroutine
is alive, whether the context the goroutine currently observes is
cancelled, and how many errors were logged. -/
structure PageState where
  listenerSet : Bool
  engineRegs : Nat
  loopRunning : Bool
  cancelled : Bool
  errorsLogged : Nat
  deriving DecidableEq, Repr

/-- A freshly constructed page: nil listener, no registration, no loop. -/
def pageInit : PageState :=
  { listenerSet := false, engineRegs := 0, loopRunning := false,
    cancelled := false, errorsLogged := 0 }

/-- The body of `listenForSyncNotifications` / `listenForMixerNotifications`
(proposals_page.go lines 413-443, account_mixer_page.go lines 267-300):
if the listener field is non-nil, return immediately; otherwise set the
field, call the engine's AddNotificationListener (`engineOK` is its
outcome); on error log and return — the listener field is NOT reset; on
success the consumer goroutine is started. -/
def listenForNotifications (engineOK : Bool) (s : PageState) : PageState :=
  if s.listenerSet then s
  else
    let s1 := { s with listenerSet := true }
    if engineOK then
      { s1 with engineRegs := s1.engineRegs + 1, loopRunning := true }
    else
      { s1 with errorsLogged := s1.errorsLogged + 1 }

/-- `OnNavigatedTo`: a fresh cancellable context is stored in the page's
`ctx` field (so the goroutine, which rereads the field at each select,
observes an uncancelled context) and then the listen helper runs. -/
def onNavigatedToPage (engineOK : Bool) (s : PageState) : PageState :=
  listenForNotifications engineOK { s with cancelled := false }

/-- `OnNavigatedFrom` / `OnClose`: cancel the page context. -/
def onNavigatedFromPage (s : PageState) : PageState :=
  { s with cancelled := true }

/-- The consumer goroutine observing the cancelled context at its select
point: `RemoveNotificationListener`, `close`, `listener = nil`, `return`.
Only a live goroutine whose observed context is cancelled does this. -/
def pageTeardownFire (s : PageState) : PageState :=
  if s.loopRunning && s.cancelled then
    { s with engineRegs := s.engineRegs - 1, loopRunning := false,
             listenerSet := false }
  else s

/-- Operations the page lifecycle and scheduler can interleave (attach and
detach are never concurrent for one page; the goroutine's teardown runs
asynchronously after cancellation). -/
inductive PageOp where
  | navTo (engineOK : Bool)
  | navFrom
  | teardownFire
  deriving DecidableEq, Repr

/-- Apply one page operation. -/
def pageStep (op : PageOp) (s : PageState) : PageState :=
  match op with
  | PageOp.navTo engineOK => onNavigatedToPage engineOK s
  | PageOp.navFrom => onNavigatedFromPage s
  | PageOp.teardownFire => pageTeardownFire s

/-- Run a sequence of page operations. -/
def runPage (ops : List PageOp) (s : PageState) : PageState :=
  ops.foldl (fun s op => pageStep op s) s

/-- The engine-facing side of one tx/block bridge: the producer is the
engine worker thread inside (or about to enter) `UpdateNotification`. -/
inductive ProducerState where
  | idle
  | sending (v : TxNotification)
  deriving DecidableEq, Repr

/-- The consumer goroutine of the bridge. -/
inductive ConsumerState where
  | running
  | done
  deriving DecidableEq, Repr

/-- Global state of one page's tx/block notification bridge: the channel
(buffer plus closed flag), the engine callback thread, the registration
flag, the page context, the consumer goroutine, the listener reference,
the history of completed enqueues and of dispatches, and whether a Go
runtime panic (send on closed channel) occurred. -/
structure BridgeState where
  chanBuf : List TxNotification
  chanClosed : Bool
  producer : ProducerState
  registered : Bool
  ctxCancelled : Bool
  consumer : ConsumerState
  listenerRef : Bool
  sent : List TxNotification
  dispatched : List TxNotification
  panicked : Bool
  deriving DecidableEq, Repr

/-- Bridge state right after a successful attach: registered, empty
channel, consumer selecting, engine idle. -/
def bridgeInit : BridgeState :=
  { chanBuf := [], chanClosed := false, producer := ProducerState.idle,
    registered := true, ctxCancelled := false,
    consumer := ConsumerState.running, listenerRef := true,
    sent := [], dispatched := [], panicked := false }

/-- Scheduler actions over the bridge.  `updateNotification v` is the
engine invoking the callback, which then performs the blocking send
`txAndBlk.TxAndBlockNotifChan <- signal`; `sendComplete` is that send
landing in the buffer; `sendOnClosed` is the same send executing after the
channel was closed (a Go runtime panic; a sender blocked on a full channel
panics the same way when the channel is closed under it); `recv` is the
consumer's notification case; `cancelCtx` cancels the page context;
`ctxDoneBranch` is the consumer's ctx.Done case, which unregisters, closes
the channel, nils the listener reference and returns. -/
inductive BridgeAction where
  | updateNotification (v : TxNotification)
  | sendComplete
  | sendOnClosed
  | recv
  | cancelCtx
  | ctxDoneBranch
  deriving DecidableEq, Repr

/-- One bridge step; `none` when the action is not enabled in `s`.  The
two consumer actions `recv` and `ctxDoneBranch` are both enabled when the
buffer is non-empty and the context cancelled: Go's select chooses among
ready cases nondeterministically, so the action sequence carries the
choice. -/
def bridgeStep (a : BridgeAction) (s : BridgeState) : Option BridgeState :=
  match a with
  | BridgeAction.updateNotification v =>
      match s.producer with
      | ProducerState.idle =>
          if s.registered && !s.panicked then
            some { s with producer := ProducerState.sending v }
          else none
      | ProducerState.sending _ => none
  | BridgeAction.sendComplete =>
      match s.producer with
      | ProducerState.sending v =>
          if !s.chanClosed && !s.panicked &&
              decide (s.chanBuf.length <
                NewTxAndBlockNotificationListener.TxAndBlockNotifChan.capacity) then
            some { s with chanBuf := s.chanBuf ++ [v],
                          sent := s.sent ++ [v],
                          producer := ProducerState.idle }
          else none
      | ProducerState.idle => none
  | BridgeAction.sendOnClosed =>
      match s.producer with
      | ProducerState.sending _ =>
          if s.chanClosed && !s.panicked then
            some { s with panicked := true }
          else none
      | ProducerState.idle => none
  | BridgeAction.recv =>
      match s.consumer, s.chanBuf with
      | ConsumerState.running, n :: rest =>
          if !s.panicked then
            some { s with chanBuf := rest, dispatched := s.dispatched ++ [n] }
          else none
      | _, _ => none
  | BridgeAction.cancelCtx =>
      if !s.ctxCancelled && !s.panicked then
        some { s with ctxCancelled := true }
      else none
  | BridgeAction.ctxDoneBranch =>
      match s.consumer with
      | ConsumerState.running =>
          if s.ctxCancelled && !s.panicked then
            some { s with registered := false, chanClosed := true,
                          listenerRef := false,
                          consumer := ConsumerState.done }
          else none
      | ConsumerState.done => none

/-- Run a sequence of bridge actions; `none` if any action is not enabled
where it occurs. -/
def runBridge (acts : List BridgeAction) (s : BridgeState) : Option BridgeState :=
  match acts with
  | [] => some s
  | a :: rest =>
      match bridgeStep a s with
      | none => none
      | some s1 => runBridge rest s1

/-- A block-attached notification at height `k`, used as a concrete test
value (`OnBlockAttached` builds exactly this shape). -/
def bn (k : Int) : TxNotification :=
  { type := TxNotifType.BlockAttached, blockHeight := k }

/-- Engine emits five notifications back to back: the first four sends
complete, the fifth `UpdateNotification` is still in the send. -/
def fillActs : List BridgeAction :=
  [BridgeAction.updateNotification (bn 1), BridgeAction.sendComplete,
   BridgeAction.updateNotification (bn 2), BridgeAction.sendComplete,
   BridgeAction.updateNotification (bn 3), BridgeAction.sendComplete,
   BridgeAction.updateNotification (bn 4), BridgeAction.sendComplete,
   BridgeAction.updateNotification (bn 5)]

/-- The bridge state after `fillActs`: four notifications buffered, the
engine thread inside `UpdateNotification` with the fifth. -/
def blockedState : BridgeState :=
  { chanBuf := [bn 1, bn 2, bn 3, bn 4], chanClosed := false,
    producer := ProducerState.sending (bn 5), registered := true,
    ctxCancelled := false, consumer := ConsumerState.running,
    listenerRef := true, sent := [bn 1, bn 2, bn 3, bn 4],
    dispatched := [], panicked := false }

/-- Claim C3: on every detach while a listener registration is active, the
consumer goroutine performs exactly one engine unregister, then exactly
one channel close, then clears the listener reference, in that order, no
matter how many notifications were dispatched before cancellation and how
many were still in flight behind it. -/
theorem detach_teardown_exactly_once (ns : List TxNotification)
    (rest : List LoopInput) :
    consumerLoop (ns.map LoopInput.notif ++ LoopInput.cancelled :: rest) =
      ns.map LoopEvent.dispatch ++
        [LoopEvent.engineUnregister, LoopEvent.channelClose,
         LoopEvent.clearListenerRef] := by
  induction ns with
  | nil => rfl
  | cons n ns ih => simpa [consumerLoop] using ih

/-- Claim C10: for the TransactionsPage path, detach does no teardown:
`OnClose` only cancels the page context, leaving the shared channel's
closed flag and the engine registration count untouched, and the consumer
goroutine, on observing cancellation, emits no unregister and no close —
it just returns after the dispatches made before cancellation. -/
theorem txpage_detach_leaves_state_unchanged (s : TransactionsPageState)
    (ns : List TxNotification) (rest : List LoopInput) :
    txPageLoop (ns.map LoopInput.notif ++ LoopInput.cancelled :: rest) =
      ns.map LoopEvent.dispatch ∧
    (TransactionsPageOnClose s).ctxCancelled = true ∧
    (TransactionsPageOnClose s).receiverChanClosed = s.receiverChanClosed ∧
    (TransactionsPageOnClose s).engineRegs = s.engineRegs := by
  refine ⟨?_, rfl, rfl, rfl⟩
  induction ns with
  | nil => rfl
  | cons n ns ih => simpa [txPageLoop] using ih

/-- Claim C4: the tx/block channel is created with capacity 4 and
`UpdateNotification` is a blocking send: after four undrained
notifications the fifth send cannot complete (the engine thread stays in
the send, the value is retained, nothing is dropped), it completes as soon
as the consumer drains one slot, and in a full run all five notifications
are delivered in order. -/
theorem tx_block_channel_capacity_and_blocking :
    NewTxAndBlockNotificationListener.TxAndBlockNotifChan.capacity = 4 ∧
    runBridge fillActs bridgeInit = some blockedState ∧
    blockedState.chanBuf.length = 4 ∧
    blockedState.producer = ProducerState.sending (bn 5) ∧
    bridgeStep BridgeAction.sendComplete blockedState = none ∧
    (runBridge [BridgeAction.recv, BridgeAction.sendComplete,
        BridgeAction.recv, BridgeAction.recv, BridgeAction.recv,
        BridgeAction.recv] blockedState).map
        (fun s => (s.dispatched, s.sent, s.panicked)) =
      some ([bn 1, bn 2, bn 3, bn 4, bn 5],
            [bn 1, bn 2, bn 3, bn 4, bn 5], false) := by
  refine ⟨rfl, by decide, rfl, rfl, by decide, by decide⟩

/-- Claim C5 (refuted: the code reaches a send on a closed channel): with
the channel full and the engine thread blocked inside
`UpdateNotification`, cancelling the page context lets the consumer take
the ctx.Done branch (a select tie is resolved nondeterministically), which
unregisters and closes the channel while the send is still pending; the
pending send then faults — the Go runtime panic for sending on a closed
channel. -/
theorem send_on_closed_channel_reachable :
    (runBridge (fillActs ++ [BridgeAction.cancelCtx,
        BridgeAction.ctxDoneBranch, BridgeAction.sendOnClosed])
        bridgeInit).map (fun s => (s.panicked, s.chanClosed, s.producer)) =
      some (true, true, ProducerState.sending (bn 5)) := by
  decide

/-- Claim C8: when the engine's AddListener call fails during attach, the
attach logs the error and returns without starting a consumer goroutine
and without registering: the loop flag and the registration count are
unchanged, one error is logged, and the page object is left in a normal
(degraded) state with its listener field set — the function returns
instead of aborting. -/
theorem attach_engine_error_degraded (s : PageState)
    (h : s.listenerSet = false) :
    (onNavigatedToPage false s).loopRunning = s.loopRunning ∧
    (onNavigatedToPage false s).engineRegs = s.engineRegs ∧
    (onNavigatedToPage false s).errorsLogged = s.errorsLogged + 1 ∧
    (onNavigatedToPage false s).listenerSet = true := by
  simp [onNavigatedToPage, listenForNotifications, h]

theorem attach_engine_error_degraded_witness :
    (onNavigatedToPage false pageInit).loopRunning = pageInit.loopRunning ∧
    (onNavigatedToPage false pageInit).engineRegs = pageInit.engineRegs ∧
    (onNavigatedToPage false pageInit).errorsLogged =
      pageInit.errorsLogged + 1 ∧
    (onNavigatedToPage false pageInit).listenerSet = true :=
  attach_engine_error_degraded pageInit rfl

/-- Invariant behind claim C9: after a failed registration the page keeps
its listener field set, has no engine registration and no live goroutine. -/
def degradedForever (s : PageState) : Prop :=
  s.listenerSet = true ∧ s.engineRegs = 0 ∧ s.loopRunning = false

theorem pageStep_degraded (op : PageOp) (s : PageState)
    (h : degradedForever s) : degradedForever (pageStep op s) := by
  obtain ⟨h1, h2, h3⟩ := h
  cases op with
  | navTo engineOK =>
      simp [pageStep, onNavigatedToPage, listenForNotifications, h1, h2, h3,
        degradedForever]
  | navFrom =>
      simp [pageStep, onNavigatedFromPage, degradedForever, h1, h2, h3]
  | teardownFire =>
      simp [pageStep, pageTeardownFire, degradedForever, h1, h2, h3]

theorem runPage_degraded (ops : List PageOp) (s : PageState)
    (h : degradedForever s) : degradedForever (runPage ops s) := by
  induction ops generalizing s with
  | nil => exact h
  | cons op ops ih =>
      have hstep := pageStep_degraded op s h
      simpa [runPage, List.foldl_cons] using ih (pageStep op s) hstep

/-- Claim C9: once AddListener has failed during attach, the listener
field stays set (the error path does not reset it), so after any further
sequence of attach calls, context cancellations and teardown attempts the
page still has zero engine registrations and no consumer goroutine — it
never registers again and receives no notifications. -/
theorem failed_attach_never_registers_again (ops : List PageOp) :
    (runPage ops (onNavigatedToPage false pageInit)).engineRegs = 0 ∧
    (runPage ops (onNavigatedToPage false pageInit)).listenerSet = true ∧
    (runPage ops (onNavigatedToPage false pageInit)).loopRunning = false := by
  have h := runPage_degraded ops (onNavigatedToPage false pageInit)
    ⟨rfl, rfl, rfl⟩
  exact ⟨h.2.1, h.1, h.2.2⟩

/-- Invariant behind claim C2: at most one registration; a nil listener
field means no registration; a live goroutine means exactly one
registration under a set listener field. -/
def pageInv (s : PageState) : Prop :=
  s.engineRegs ≤ 1 ∧
  (s.listenerSet = false → s.engineRegs = 0) ∧
  (s.loopRunning = true → s.engineRegs = 1 ∧ s.listenerSet = true)

theorem pageStep_inv (op : PageOp) (s : PageState) (h : pageInv s) :
    pageInv (pageStep op s) := by
  obtain ⟨h1, h2, h3⟩ := h
  cases op with
  | navTo engineOK =>
      by_cases hl : s.listenerSet = true
      · have hres : pageStep (PageOp.navTo engineOK) s =
            { s with cancelled := false } := by
          simp [pageStep, onNavigatedToPage, listenForNotifications, hl]
        rw [hres]
        exact ⟨h1, h2, h3⟩
      · have hl0 : s.listenerSet = false := by
          cases hls : s.listenerSet
          · rfl
          · exact absurd hls hl
        have hr0 : s.engineRegs = 0 := h2 hl0
        have hlr0 : s.loopRunning = false := by
          cases hlr : s.loopRunning
          · rfl
          · exact absurd (h3 hlr).2 (by simp [hl0])
        cases engineOK
        · have hres : pageStep (PageOp.navTo false) s =
              { s with cancelled := false, listenerSet := true,
                       errorsLogged := s.errorsLogged + 1 } := by
            simp [pageStep, onNavigatedToPage, listenForNotifications, hl0]
          rw [hres]
          exact ⟨h1, fun _ => hr0, fun hh => absurd hh (by simp [hlr0])⟩
        · have hres : pageStep (PageOp.navTo true) s =
              { s with cancelled := false, listenerSet := true,
                       engineRegs := s.engineRegs + 1,
                       loopRunning := true } := by
            simp [pageStep, onNavigatedToPage, listenForNotifications, hl0]
          rw [hres]
          refine ⟨by simp [hr0], fun hh => by simp at hh,
            fun _ => ⟨by simp [hr0], rfl⟩⟩
  | navFrom =>
      exact ⟨h1, h2, h3⟩
  | teardownFire =>
      by_cases hfire : s.loopRunning = true ∧ s.cancelled = true
      · have hreg := (h3 hfire.1).1
        have hres : pageStep PageOp.teardownFire s =
            { s with engineRegs := s.engineRegs - 1, loopRunning := false,
                     listenerSet := false } := by
          simp [pageStep, pageTeardownFire, hfire.1, hfire.2]
        rw [hres]
        refine ⟨by simp [hreg], fun _ => by simp [hreg],
          fun hh => by simp at hh⟩
      · have hcond : (s.loopRunning && s.cancelled) = false := by
          cases hlr : s.loopRunning
          · simp
          · cases hcc : s.cancelled
            · simp
            · exact absurd ⟨hlr, hcc⟩ hfire
        have hres : pageStep PageOp.teardownFire s = s := by
          simp [pageStep, pageTeardownFire, hcond]
        rw [hres]
        exact ⟨h1, h2, h3⟩

theorem runPage_inv (ops : List PageOp) (s : PageState) (h : pageInv s) :
    pageInv (runPage ops s) := by
  induction ops generalizing s with
  | nil => exact h
  | cons op ops ih =>
      have hstep := pageStep_inv op s h
      simpa [runPage, List.foldl_cons] using ih (pageStep op s) hstep

/-- Claim C2: over every sequence of attach (OnNavigatedTo, with either
engine outcome), detach (context cancellation) and asynchronous goroutine
teardown, the number of active engine registrations under the page's name
is always 0 or 1; and an attach that finds the listener field already set
returns at the nil-guard without touching anything. -/
theorem registrations_never_exceed_one :
    (∀ ops : List PageOp, (runPage ops pageInit).engineRegs ≤ 1) ∧
    (∀ (engineOK : Bool) (s : PageState), s.listenerSet = true →
      listenForNotifications engineOK s = s) := by
  constructor
  · intro ops
    exact (runPage_inv ops pageInit ⟨by simp [pageInit], fun _ => rfl,
      by simp [pageInit]⟩).1
  · intro engineOK s h
    simp [listenForNotifications, h]

theorem registrations_never_exceed_one_witness :
    (runPage [PageOp.navTo true, PageOp.navTo true, PageOp.navFrom,
        PageOp.teardownFire, PageOp.navTo true] pageInit).engineRegs ≤ 1 ∧
    listenForNotifications true (onNavigatedToPage true pageInit) =
      onNavigatedToPage true pageInit :=
  ⟨registrations_never_exceed_one.1 [PageOp.navTo true, PageOp.navTo true,
      PageOp.navFrom, PageOp.teardownFire, PageOp.navTo true],
   registrations_never_exceed_one.2 true (onNavigatedToPage true pageInit)
      rfl⟩

/-- Invariant behind claim C1: while the page context is not cancelled the
channel stays open and the dispatch history followed by the buffered
notifications is exactly the enqueue history. -/
def fifoInv (s : BridgeState) : Prop :=
  s.ctxCancelled = false ∧ s.chanClosed = false ∧
  s.dispatched ++ s.chanBuf = s.sent

theorem bridgeStep_fifo (a : BridgeAction) (s s1 : BridgeState)
    (ha : a ≠ BridgeAction.cancelCtx) (hstep : bridgeStep a s = some s1)
    (h : fifoInv s) : fifoInv s1 := by
  obtain ⟨hcc, hcl, hfifo⟩ := h
  cases a with
  | updateNotification v =>
      cases hp : s.producer with
      | idle =>
          rw [bridgeStep, hp] at hstep
          by_cases hg : (s.registered && !s.panicked) = true
          · rw [if_pos hg] at hstep
            cases hstep
            exact ⟨hcc, hcl, hfifo⟩
          · rw [if_neg hg] at hstep
            cases hstep
      | sending w =>
          rw [bridgeStep, hp] at hstep
          cases hstep
  | sendComplete =>
      cases hp : s.producer with
      | idle =>
          rw [bridgeStep, hp] at hstep
          cases hstep
      | sending v =>
          rw [bridgeStep, hp] at hstep
          by_cases hg : (!s.chanClosed && !s.panicked &&
              decide (s.chanBuf.length <
                NewTxAndBlockNotificationListener.TxAndBlockNotifChan.capacity)) = true
          · simp only [hg, if_true] at hstep
            cases hstep
            refine ⟨hcc, hcl, ?_⟩
            simp only [← List.append_assoc, hfifo]
          · simp only [hg, if_false, Bool.false_eq_true] at hstep
            cases hstep
  | sendOnClosed =>
      cases hp : s.producer with
      | idle =>
          rw [bridgeStep, hp] at hstep
          cases hstep
      | sending v =>
          rw [bridgeStep, hp] at hstep
          by_cases hg : (s.chanClosed && !s.panicked) = true
          · exact absurd (by simp [hcl] : (s.chanClosed && !s.panicked) = false)
              (by simp [hg])
          · rw [if_neg hg] at hstep
            cases hstep
  | recv =>
      cases hcons : s.consumer with
      | running =>
          cases hb : s.chanBuf with
          | nil =>
              rw [bridgeStep, hcons, hb] at hstep
              cases hstep
          | cons n rest =>
              rw [bridgeStep, hcons, hb] at hstep
              by_cases hg : (!s.panicked) = true
              · simp only [hg, if_true] at hstep
                cases hstep
                refine ⟨hcc, hcl, ?_⟩
                rw [← hfifo, hb]
                simp
              · simp only [hg, if_false, Bool.false_eq_true] at hstep
                cases hstep
      | done =>
          rw [bridgeStep, hcons] at hstep
          cases hb : s.chanBuf <;> rw [hb] at hstep <;> cases hstep
  | cancelCtx => exact absurd rfl ha
  | ctxDoneBranch =>
      cases hcons : s.consumer with
      | running =>
          rw [bridgeStep, hcons] at hstep
          by_cases hg : (s.ctxCancelled && !s.panicked) = true
          · exact absurd (by simp [hcc] : (s.ctxCancelled && !s.panicked) = false)
              (by simp [hg])
          · rw [if_neg hg] at hstep
            cases hstep
      | done =>
          rw [bridgeStep, hcons] at hstep
          cases hstep

theorem runBridge_fifo (acts : List BridgeAction) (s s1 : BridgeState)
    (ha : BridgeAction.cancelCtx ∉ acts) (hr : runBridge acts s = some s1)
    (h : fifoInv s) : fifoInv s1 := by
  induction acts generalizing s with
  | nil =>
      rw [runBridge] at hr
      cases hr
      exact h
  | cons a rest ih =>
      have hane : a ≠ BridgeAction.cancelCtx := fun he => ha (he ▸ List.mem_cons_self a rest)
      have hrest : BridgeAction.cancelCtx ∉ rest := fun hm => ha (List.mem_cons_of_mem a hm)
      rw [runBridge] at hr
      cases hstep : bridgeStep a s with
      | none => rw [hstep] at hr; cases hr
      | some s2 =>
          rw [hstep] at hr
          exact ih s2 hrest hr (bridgeStep_fifo a s s2 hane hstep h)

/-- Claim C1: for every interleaving of engine sends and consumer receives
in which the page context is never cancelled, the dispatch history
followed by the still-buffered notifications equals the enqueue history —
so dispatches happen in enqueue order with no loss, duplication or
reordering — and once the channel is drained every enqueued notification
has been dispatched exactly once. -/
theorem notifications_fifo_exactly_once (acts : List BridgeAction)
    (s : BridgeState) (hnc : BridgeAction.cancelCtx ∉ acts)
    (hr : runBridge acts bridgeInit = some s) :
    s.dispatched ++ s.chanBuf = s.sent ∧
    (s.chanBuf = [] → s.dispatched = s.sent) := by
  have h := runBridge_fifo acts bridgeInit s hnc hr ⟨rfl, rfl, rfl⟩
  refine ⟨h.2.2, fun hb => ?_⟩
  have := h.2.2
  rw [hb] at this
  simpa using this

theorem notifications_fifo_exactly_once_witness :
    ((blockedState.dispatched ++ blockedState.chanBuf = blockedState.sent) ∧
      (blockedState.chanBuf = [] →
        blockedState.dispatched = blockedState.sent)) :=
  notifications_fifo_exactly_once fillActs blockedState (by decide)
    (by decide)

/-- A reachable bridge state in which the select is tied: one notification
is buffered and the page context is already cancelled. -/
def tiedState : BridgeState :=
  { chanBuf := [bn 1], chanClosed := false, producer := ProducerState.idle,
    registered := true, ctxCancelled := true,
    consumer := ConsumerState.running, listenerRef := true,
    sent := [bn 1], dispatched := [], panicked := false }

/-- Claim C6 is false as stated: at a reachable select point with a
notification buffered and the context cancelled, the loop can take the
notification branch — Go's select picks among ready cases
nondeterministically, it gives the ctx.Done case no priority — dispatching
the pending notification and continuing without any teardown. -/
theorem cancellation_does_not_always_win :
    runBridge [BridgeAction.updateNotification (bn 1),
        BridgeAction.sendComplete, BridgeAction.cancelCtx] bridgeInit =
      some tiedState ∧
    tiedState.ctxCancelled = true ∧
    tiedState.chanBuf = [bn 1] ∧
    tiedState.consumer = ConsumerState.running ∧
    (runBridge [BridgeAction.recv] tiedState).map
        (fun s => (s.dispatched, s.consumer, s.chanClosed, s.registered)) =
      some ([bn 1], ConsumerState.running, false, true) := by
  decide

/-- Claim C6 (amended): when the consumer loop reaches its select point
with both a notification available and the context cancelled, either
branch may be taken; the cancellation branch is enabled and, when taken,
performs the teardown (unregister, close, clear, stop), while the
notification branch, equally enabled, dispatches the pending notification
and keeps the loop running. -/
theorem select_tie_both_branches_enabled (s : BridgeState)
    (hrun : s.consumer = ConsumerState.running)
    (hcanc : s.ctxCancelled = true) (hnp : s.panicked = false) :
    bridgeStep BridgeAction.ctxDoneBranch s =
      some { s with registered := false, chanClosed := true,
                    listenerRef := false, consumer := ConsumerState.done } ∧
    (∀ n rest, s.chanBuf = n :: rest →
      bridgeStep BridgeAction.recv s =
        some { s with chanBuf := rest,
                      dispatched := s.dispatched ++ [n] }) := by
  constructor
  · rw [bridgeStep, hrun]
    simp [hcanc, hnp]
  · intro n rest hb
    rw [bridgeStep, hrun, hb]
    simp [hnp]

theorem select_tie_both_branches_enabled_witness :
    bridgeStep BridgeAction.ctxDoneBranch tiedState =
      some { tiedState with registered := false, chanClosed := true,
                            listenerRef := false,
                            consumer := ConsumerState.done } ∧
    bridgeStep BridgeAction.recv tiedState =
      some { tiedState with chanBuf := [],
                            dispatched := tiedState.dispatched ++ [bn 1] } :=
  ⟨(select_tie_both_branches_enabled tiedState rfl rfl rfl).1,
   (select_tie_both_branches_enabled tiedState rfl rfl rfl).2 (bn 1) [] rfl⟩

/-- Decoder standing for a json.Unmarshal call that fails. -/
def umFail : String → Option Transaction := fun _ => none

/-- Decoder standing for a json.Unmarshal call that succeeds with the
transaction of id 7. -/
def umOk : String → Option Transaction := fun _ => some { id := 7 }

/-- Claim C7: when the payload fails to deserialize, `OnTransaction` logs
one error, enqueues nothing, and returns normally (it is a total function
into the listener state, with no error result to propagate); when the
payload deserializes to a transaction, exactly one NewTransaction
notification carrying that transaction is enqueued and nothing is
logged. -/
theorem ontransaction_error_drop_success_enqueue
    (unmarshal : String → Option Transaction) (payload : String)
    (st : ListenerState) :
    (unmarshal payload = none →
      OnTransaction unmarshal payload st =
        { st with errorsLogged := st.errorsLogged + 1 }) ∧
    (∀ tx, unmarshal payload = some tx →
      OnTransaction unmarshal payload st =
        { st with chanBuf := st.chanBuf ++
            [{ type := TxNotifType.NewTransaction,
               transaction := some tx }] }) := by
  constructor
  · intro h
    simp [OnTransaction, h]
  · intro tx h
    simp [OnTransaction, h]

theorem ontransaction_error_drop_success_enqueue_witness :
    OnTransaction umFail "not-json" { } =
      { chanBuf := [], errorsLogged := 1 } ∧
    OnTransaction umOk "tx-payload" { } =
      { chanBuf := [{ type := TxNotifType.NewTransaction,
                      transaction := some { id := 7 } }],
        errorsLogged := 0 } :=
  ⟨(ontransaction_error_drop_success_enqueue umFail "not-json" { }).1 rfl,
   (ontransaction_error_drop_success_enqueue umOk "tx-payload" { }).2
     { id := 7 } rfl⟩

end Cryptopower
